import Mathlib

/-!
Verification of the time-driven state engines of `src/App.js`:
the countdown hook, the shayari rotation hook, the audio player hook and
the mouse-parallax hook. Numeric JavaScript expressions are modelled over
`ℚ` (exact arithmetic); `Date.getTime()` values are integers of
milliseconds, so time stamps are `ℤ`. `Math.floor` is `Int.floor`.
-/

/-- JavaScript's `%` on numbers is `a - b * trunc(a / b)`; for a
non-negative dividend and a positive divisor (the only way the source
uses it on non-integers) truncation coincides with the floor, which is
how it is written here. -/
def jsMod (a b : ℚ) : ℚ := a - b * ⌊a / b⌋

/-- The record returned by `calculateTimeLeft` in `useCountdown`
(`src/App.js` lines 64-80). All fields are the values of `Math.floor`,
hence integers. -/
structure CountdownState where
  years : ℤ
  days : ℤ
  hours : ℤ
  minutes : ℤ
  seconds : ℤ
deriving DecidableEq

/-- `calculateTimeLeft` from `useCountdown` (`src/App.js` lines 64-80),
with `difference = targetDateRef.current.getTime() - new Date().getTime()`
made explicit as the two integer time stamps `target` and `now`. -/
def calculateTimeLeft (target now : ℤ) : CountdownState :=
  let difference : ℚ := (target : ℚ) - (now : ℚ)
  if 0 < difference then
    { years := ⌊difference / (1000 * 60 * 60 * 24 * (365.25 : ℚ))⌋
    , days := ⌊jsMod (difference / (1000 * 60 * 60 * 24)) (365.25 : ℚ)⌋
    , hours := ⌊jsMod (difference / (1000 * 60 * 60)) 24⌋
    , minutes := ⌊jsMod (difference / 1000 / 60) 60⌋
    , seconds := ⌊jsMod (difference / 1000) 60⌋ }
  else
    { years := 0, days := 0, hours := 0, minutes := 0, seconds := 0 }

def msPerDay : ℚ := 1000 * 60 * 60 * 24

def msPerHour : ℚ := 1000 * 60 * 60

def msPerMinute : ℚ := 1000 * 60

/-- The countdown state exactly as the specification words it: all
fields zero when `diff <= 0`, otherwise `years` and `days` from the
365.25-day split and `hours`/`minutes`/`seconds` as a floored quotient
reduced by an integer modulus. -/
def claimTimeLeft (target now : ℤ) : CountdownState :=
  let diff : ℚ := (target : ℚ) - (now : ℚ)
  if diff ≤ 0 then
    { years := 0, days := 0, hours := 0, minutes := 0, seconds := 0 }
  else
    { years := ⌊diff / (msPerDay * (365.25 : ℚ))⌋
    , days := ⌊jsMod (diff / msPerDay) (365.25 : ℚ)⌋
    , hours := ⌊diff / msPerHour⌋ % 24
    , minutes := ⌊diff / msPerMinute⌋ % 60
    , seconds := ⌊diff / 1000⌋ % 60 }

theorem jsMod_nonneg (a b : ℚ) (hb : 0 < b) : 0 ≤ jsMod a b := by
  have h := Int.sub_floor_div_mul_nonneg a hb
  unfold jsMod
  linarith [h]

theorem jsMod_lt (a b : ℚ) (hb : 0 < b) : jsMod a b < b := by
  have h := Int.sub_floor_div_mul_lt a hb
  unfold jsMod
  linarith [h]

/-- Flooring a JavaScript remainder by a positive integer divisor agrees
with taking the integer remainder of the floored dividend. -/
theorem floor_jsMod (a : ℚ) (n : ℤ) (hn : 0 < n) :
    ⌊jsMod a (n : ℚ)⌋ = ⌊a⌋ % n := by
  have hnQ : (0 : ℚ) < (n : ℚ) := by exact_mod_cast hn
  have hfl : ⌊jsMod a (n : ℚ)⌋ = ⌊a⌋ - n * ⌊a / (n : ℚ)⌋ := by
    unfold jsMod
    rw [show (n : ℚ) * (⌊a / (n : ℚ)⌋ : ℚ) = ((n * ⌊a / (n : ℚ)⌋ : ℤ) : ℚ) by
      push_cast; ring]
    exact Int.floor_sub_int a _
  have hr0 : (0 : ℤ) ≤ ⌊jsMod a (n : ℚ)⌋ := by
    have := jsMod_nonneg a (n : ℚ) hnQ
    exact Int.le_floor.2 (by exact_mod_cast this)
  have hrn : ⌊jsMod a (n : ℚ)⌋ < n := by
    have := jsMod_lt a (n : ℚ) hnQ
    exact Int.floor_lt.2 (by exact_mod_cast this)
  have hsplit : ⌊a⌋ = ⌊jsMod a (n : ℚ)⌋ + n * ⌊a / (n : ℚ)⌋ := by
    rw [hfl]; ring
  calc ⌊jsMod a (n : ℚ)⌋ = ⌊jsMod a (n : ℚ)⌋ % n :=
        (Int.emod_eq_of_lt hr0 hrn).symm
    _ = (⌊jsMod a (n : ℚ)⌋ + n * ⌊a / (n : ℚ)⌋) % n := by
        rw [Int.add_mul_emod_self_left]
    _ = ⌊a⌋ % n := by rw [← hsplit]

/-- Claim C1: on every tick, if `diff = target - now <= 0` all countdown
fields are 0; otherwise the fields are exactly the floored 365.25-day
year/day split and the `mod 24` / `mod 60` / `mod 60` reductions of the
floored hour, minute and second quotients. -/
theorem calculateTimeLeft_matches_claim (target now : ℤ) :
    calculateTimeLeft target now = claimTimeLeft target now := by
  simp only [calculateTimeLeft, claimTimeLeft, msPerDay, msPerHour, msPerMinute]
  by_cases h : (0 : ℚ) < (target : ℚ) - (now : ℚ)
  · rw [if_pos h, if_neg (not_le.2 h)]
    simp only [CountdownState.mk.injEq]
    refine ⟨trivial, trivial, ?_, ?_, ?_⟩
    · have hmod := floor_jsMod (((target : ℚ) - (now : ℚ)) / (1000 * 60 * 60)) 24
        (by norm_num)
      simpa using hmod
    · rw [div_div]
      have hmod := floor_jsMod (((target : ℚ) - (now : ℚ)) / (1000 * 60)) 60
        (by norm_num)
      simpa using hmod
    · have hmod := floor_jsMod (((target : ℚ) - (now : ℚ)) / 1000) 60
        (by norm_num)
      simpa using hmod
  · rw [if_neg h, if_pos (le_of_not_lt h)]

/-- Claim C2: once the target instant is reached or passed, every state
computed at any later time is exactly all zeros (so no field ever
re-increments), and no field of any computed state is ever negative. -/
theorem calculateTimeLeft_pinned_after_target (target now later t u : ℤ)
    (hpast : target ≤ now) (hlater : now ≤ later) :
    calculateTimeLeft target later =
      { years := 0, days := 0, hours := 0, minutes := 0, seconds := 0 } ∧
    0 ≤ (calculateTimeLeft t u).years ∧ 0 ≤ (calculateTimeLeft t u).days ∧
    0 ≤ (calculateTimeLeft t u).hours ∧
    0 ≤ (calculateTimeLeft t u).minutes ∧
    0 ≤ (calculateTimeLeft t u).seconds := by
  constructor
  · have hle : ((target : ℚ) - (later : ℚ)) ≤ 0 := by
      have h1 : target ≤ later := le_trans hpast hlater
      have h2 : ((target : ℚ)) ≤ (later : ℚ) := by exact_mod_cast h1
      linarith
    simp only [calculateTimeLeft]
    rw [if_neg (not_lt.2 hle)]
  · simp only [calculateTimeLeft]
    by_cases h : (0 : ℚ) < (t : ℚ) - (u : ℚ)
    · rw [if_pos h]
      have hd : (0 : ℚ) ≤ (t : ℚ) - (u : ℚ) := le_of_lt h
      have hy : (0 : ℚ) ≤
          ((t : ℚ) - (u : ℚ)) / (1000 * 60 * 60 * 24 * (365.25 : ℚ)) :=
        div_nonneg hd (by norm_num)
      have hdays := jsMod_nonneg (((t : ℚ) - (u : ℚ)) / (1000 * 60 * 60 * 24))
        (365.25 : ℚ) (by norm_num)
      have hhours := jsMod_nonneg (((t : ℚ) - (u : ℚ)) / (1000 * 60 * 60)) 24
        (by norm_num)
      have hmin := jsMod_nonneg (((t : ℚ) - (u : ℚ)) / 1000 / 60) 60 (by norm_num)
      have hsec := jsMod_nonneg (((t : ℚ) - (u : ℚ)) / 1000) 60 (by norm_num)
      exact ⟨Int.le_floor.2 (by exact_mod_cast hy),
        Int.le_floor.2 (by exact_mod_cast hdays),
        Int.le_floor.2 (by exact_mod_cast hhours),
        Int.le_floor.2 (by exact_mod_cast hmin),
        Int.le_floor.2 (by exact_mod_cast hsec)⟩
    · rw [if_neg h]
      exact ⟨le_refl 0, le_refl 0, le_refl 0, le_refl 0, le_refl 0⟩

/-- Witness for claim C2 at target 5, now 6, later 10 (pinned branch)
and at t = 157788000000, u = 0 (a strictly positive difference). -/
theorem calculateTimeLeft_pinned_after_target_witness :
    (5 : ℤ) ≤ 6 ∧ (6 : ℤ) ≤ 10 ∧
    (calculateTimeLeft 5 10 =
        { years := 0, days := 0, hours := 0, minutes := 0, seconds := 0 } ∧
      0 ≤ (calculateTimeLeft 157788000000 0).years ∧
      0 ≤ (calculateTimeLeft 157788000000 0).days ∧
      0 ≤ (calculateTimeLeft 157788000000 0).hours ∧
      0 ≤ (calculateTimeLeft 157788000000 0).minutes ∧
      0 ≤ (calculateTimeLeft 157788000000 0).seconds) :=
  ⟨by norm_num, by norm_num,
    calculateTimeLeft_pinned_after_target 5 6 10 157788000000 0
      (by norm_num) (by norm_num)⟩

/-- One tick of `useShayariRotation` (`src/App.js` line 105):
`setCurrentShayariIndex(prev => (prev + 1) % lines.length)`. The index
is a JavaScript number, so `x % 0` is `NaN`; `none` models `NaN`, which
every further tick preserves (`NaN + 1` is `NaN`, `NaN % n` is `NaN`). -/
def rotationStepJS (n : ℕ) : Option ℕ → Option ℕ
  | none => none
  | some i => if n = 0 then none else some ((i + 1) % n)

/-- The rotation index of `useShayariRotation` (`src/App.js` lines
100-113) after `k` ticks: `useState(0)` starts it at 0 and each tick
applies `rotationStepJS`. -/
def rotationIndexJS (lines : List String) (k : ℕ) : Option ℕ :=
  (rotationStepJS lines.length)^[k] (some 0)

/-- `currentShayari = lines[currentShayariIndex]` (`src/App.js` line
112): `undefined` (`none`) when the index is `NaN` or out of range. -/
def currentShayariJS (lines : List String) (k : ℕ) : Option String :=
  match rotationIndexJS lines k with
  | none => none
  | some i => lines[i]?

theorem rotationStepJS_iterate_mod (n : ℕ) (hn : 0 < n) (k : ℕ) :
    (rotationStepJS n)^[k] (some 0) = some (k % n) := by
  induction k with
  | zero => simp
  | succ k ih =>
      rw [Function.iterate_succ_apply', ih]
      simp only [rotationStepJS, if_neg (Nat.pos_iff_ne_zero.1 hn)]
      rw [Nat.mod_add_mod]

/-- Claim C3: for a non-empty list the rotation index is 0 at start,
equals `k mod N` after exactly `k` ticks, and each tick advances it by
exactly one step modulo `N`. -/
theorem rotationIndexJS_eq_mod (lines : List String) (k : ℕ)
    (h : lines ≠ []) :
    rotationIndexJS lines 0 = some 0 ∧
    rotationIndexJS lines k = some (k % lines.length) ∧
    rotationIndexJS lines (k + 1) =
      some ((k % lines.length + 1) % lines.length) := by
  have hn : 0 < lines.length := List.length_pos.2 h
  refine ⟨rfl, rotationStepJS_iterate_mod lines.length hn k, ?_⟩
  rw [rotationIndexJS, rotationStepJS_iterate_mod lines.length hn (k + 1),
    Nat.mod_add_mod]

/-- Witness for claim C3 on the three-element list after five ticks. -/
theorem rotationIndexJS_eq_mod_witness :
    ["a", "b", "c"] ≠ ([] : List String) ∧
    (rotationIndexJS ["a", "b", "c"] 0 = some 0 ∧
      rotationIndexJS ["a", "b", "c"] 5 = some (5 % ["a", "b", "c"].length) ∧
      rotationIndexJS ["a", "b", "c"] (5 + 1) =
        some ((5 % ["a", "b", "c"].length + 1) % ["a", "b", "c"].length)) :=
  ⟨by simp, rotationIndexJS_eq_mod ["a", "b", "c"] 5 (by simp)⟩

/-- Claim C4 counterexample: `useShayariRotation` performs no emptiness
check. On the empty list the engine starts normally — the initial index
0 is exposed — and the first tick computes `(0 + 1) % 0`, which is `NaN`
in JavaScript: the engine runs with an invalid index instead of
refusing with an error at construction time. -/
theorem rotationIndexJS_empty_counterexample :
    rotationIndexJS ([] : List String) 0 = some 0 ∧
    rotationIndexJS ([] : List String) 1 = none :=
  ⟨rfl, rfl⟩

theorem rotationStepJS_iterate_none (n j : ℕ) :
    (rotationStepJS n)^[j] none = none :=
  Function.iterate_fixed rfl j

/-- Claim C4 (amended): constructed with an empty list the rotation
engine does not refuse to start: it exposes index 0 immediately, and
from the first tick onward the index is `NaN` (JavaScript `% 0`) — an
invalid index — and the current item is `undefined`. -/
theorem rotationIndexJS_empty_behavior (k : ℕ) (hk : 1 ≤ k) :
    rotationIndexJS ([] : List String) 0 = some 0 ∧
    rotationIndexJS ([] : List String) k = none ∧
    currentShayariJS ([] : List String) k = none := by
  obtain ⟨j, rfl⟩ : ∃ j, k = j + 1 := ⟨k - 1, by omega⟩
  have hidx : rotationIndexJS ([] : List String) (j + 1) = none := by
    rw [rotationIndexJS, Function.iterate_succ_apply]
    exact rotationStepJS_iterate_none _ j
  refine ⟨rfl, hidx, ?_⟩
  rw [currentShayariJS, hidx]

/-- Witness for the amended claim C4 at the first tick. -/
theorem rotationIndexJS_empty_behavior_witness :
    (1 : ℕ) ≤ 1 ∧
    (rotationIndexJS ([] : List String) 0 = some 0 ∧
      rotationIndexJS ([] : List String) 1 = none ∧
      currentShayariJS ([] : List String) 1 = none) :=
  ⟨le_refl 1, rotationIndexJS_empty_behavior 1 (le_refl 1)⟩

/-- A request issued to the underlying `<audio>` element. -/
inductive AudioEffect where
  | playRequest
  | pauseRequest
deriving DecidableEq

/-- The observable state of `useAudioPlayer` (`src/App.js` lines
121-144): whether an audio element is attached to `audioRef`, the
`isPlayingAudio` flag, the requests issued to the element so far
(oldest first), and the `console.error` diagnostic sink. -/
structure AudioPlayerState where
  attached : Bool
  isPlayingAudio : Bool
  effects : List AudioEffect
  errorLog : List String
deriving DecidableEq

/-- The state after mounting `useAudioPlayer`:
`useState(false)` for `isPlayingAudio`, no requests issued, nothing
logged to the error sink. -/
def initAudioPlayer (attached : Bool) : AudioPlayerState :=
  { attached := attached, isPlayingAudio := false, effects := [], errorLog := [] }

/-- `toggleAudio` (`src/App.js` lines 131-141). Everything inside the
`if (audioRef.current)` guard is skipped when no element is attached;
otherwise a pause or play request is issued (the play request is
asynchronous — its resolution is `resolvePlayRequest` below) and
`setIsPlayingAudio(!isPlayingAudio)` flips the flag synchronously. -/
def toggleAudio (s : AudioPlayerState) : AudioPlayerState :=
  if s.attached then
    if s.isPlayingAudio then
      { s with effects := s.effects ++ [AudioEffect.pauseRequest]
             , isPlayingAudio := !s.isPlayingAudio }
    else
      { s with effects := s.effects ++ [AudioEffect.playRequest]
             , isPlayingAudio := !s.isPlayingAudio }
  else s

/-- The later resolution of the asynchronous `play()` promise
(`src/App.js` line 137): on rejection the `.catch` handler writes
`console.error("Audio play failed:", e)`; nothing else changes, and a
fulfilled promise changes nothing at all. -/
def resolvePlayRequest (s : AudioPlayerState) (failed : Bool) : AudioPlayerState :=
  if failed then { s with errorLog := s.errorLog ++ ["Audio play failed:"] }
  else s

theorem toggleAudio_attached_flip (s : AudioPlayerState)
    (h : s.attached = true) :
    (toggleAudio s).attached = true ∧
    (toggleAudio s).isPlayingAudio = !s.isPlayingAudio := by
  unfold toggleAudio
  rw [h]
  by_cases hp : s.isPlayingAudio <;> simp [hp]

/-- Claim C5: from the initial paused state with an attached element,
one toggle reports playing `true` synchronously — the play request is
merely issued, not yet resolved — a second toggle issues a pause and
reports `false`, and after `n` toggles the flag is `true` exactly when
`n` is odd. -/
theorem toggleAudio_parity (n : ℕ) :
    ((toggleAudio)^[n] (initAudioPlayer true)).isPlayingAudio =
      decide (n % 2 = 1) ∧
    (toggleAudio (initAudioPlayer true)).isPlayingAudio = true ∧
    (toggleAudio (initAudioPlayer true)).effects = [AudioEffect.playRequest] ∧
    (toggleAudio (toggleAudio (initAudioPlayer true))).isPlayingAudio = false ∧
    (toggleAudio (toggleAudio (initAudioPlayer true))).effects =
      [AudioEffect.playRequest, AudioEffect.pauseRequest] := by
  have key : ∀ m : ℕ,
      ((toggleAudio)^[m] (initAudioPlayer true)).attached = true ∧
      ((toggleAudio)^[m] (initAudioPlayer true)).isPlayingAudio =
        decide (m % 2 = 1) := by
    intro m
    induction m with
    | zero => exact ⟨rfl, rfl⟩
    | succ m ih =>
        rw [Function.iterate_succ_apply']
        obtain ⟨ha, hp⟩ := ih
        obtain ⟨ha2, hp2⟩ := toggleAudio_attached_flip _ ha
        refine ⟨ha2, ?_⟩
        rw [hp2, hp, ← decide_not, decide_eq_decide]
        omega
  exact ⟨(key n).2, by simp [toggleAudio, initAudioPlayer],
    by simp [toggleAudio, initAudioPlayer],
    by simp [toggleAudio, initAudioPlayer],
    by simp [toggleAudio, initAudioPlayer]⟩

/-- Claim C6: when the asynchronous play request fails, the failure is
appended to the diagnostic error log and the `isPlayingAudio` flag is
not rolled back — apart from the log entry the state is identical to
the state after a successful request. -/
theorem resolvePlayRequest_no_rollback (s : AudioPlayerState) :
    (resolvePlayRequest s true).isPlayingAudio = s.isPlayingAudio ∧
    (resolvePlayRequest s true).errorLog =
      s.errorLog ++ ["Audio play failed:"] ∧
    (resolvePlayRequest s true).isPlayingAudio =
      (resolvePlayRequest s false).isPlayingAudio ∧
    (resolvePlayRequest s true).effects = (resolvePlayRequest s false).effects ∧
    (resolvePlayRequest s true).attached =
      (resolvePlayRequest s false).attached := by
  simp [resolvePlayRequest]

/-- Claim C10: with no audio element attached, `toggleAudio` is a
complete no-op — the state (including the issued-request list and the
`isPlayingAudio` flag) is unchanged. -/
theorem toggleAudio_noop_unattached (s : AudioPlayerState)
    (h : s.attached = false) :
    toggleAudio s = s ∧
    (toggleAudio s).effects = s.effects ∧
    (toggleAudio s).isPlayingAudio = s.isPlayingAudio := by
  have hs : toggleAudio s = s := by
    unfold toggleAudio
    rw [h]
    simp
  exact ⟨hs, by rw [hs], by rw [hs]⟩

/-- Witness for claim C10 on an unattached state with the flag set. -/
theorem toggleAudio_noop_unattached_witness :
    (AudioPlayerState.mk false true [] []).attached = false ∧
    (toggleAudio (AudioPlayerState.mk false true [] []) =
        AudioPlayerState.mk false true [] [] ∧
      (toggleAudio (AudioPlayerState.mk false true [] [])).effects =
        (AudioPlayerState.mk false true [] []).effects ∧
      (toggleAudio (AudioPlayerState.mk false true [] [])).isPlayingAudio =
        (AudioPlayerState.mk false true [] []).isPlayingAudio) :=
  ⟨rfl, toggleAudio_noop_unattached (AudioPlayerState.mk false true [] []) rfl⟩

/-- The `{x, y}` offset state of `useMouseParallax` (`src/App.js`
lines 151-179). -/
structure ParallaxOffset where
  x : ℚ
  y : ℚ
deriving DecidableEq

/-- `useState({ x: 0, y: 0 })`: the offset before any pointer event
(`src/App.js` line 152). -/
def initialOffset : ParallaxOffset := { x := 0, y := 0 }

/-- `handleMouseMove` (`src/App.js` lines 155-167): the offset computed
from a pointer event at `(clientX, clientY)` with viewport
`(innerWidth, innerHeight)` and the hook's `strength` parameter. -/
def handleMouseMove (strength clientX clientY innerWidth innerHeight : ℚ) :
    ParallaxOffset :=
  let centerX := innerWidth / 2
  let centerY := innerHeight / 2
  { x := (clientX - centerX) / centerX * strength
  , y := (clientY - centerY) / centerY * strength }

/-- Claim C8: the offset is `{0, 0}` before any pointer event; every
pointer event at `(px, py)` yields the centred, normalised, scaled
offset; the exact viewport centre yields `{0, 0}` and the top-left
corner `(0, 0)` yields `{-s, -s}`. -/
theorem handleMouseMove_formula (s px py w h : ℚ) (hw : 0 < w) (hh : 0 < h) :
    initialOffset = { x := 0, y := 0 } ∧
    handleMouseMove s px py w h =
      { x := (px - w / 2) / (w / 2) * s, y := (py - h / 2) / (h / 2) * s } ∧
    handleMouseMove s (w / 2) (h / 2) w h = { x := 0, y := 0 } ∧
    handleMouseMove s 0 0 w h = { x := -s, y := -s } := by
  have hw0 : w ≠ 0 := ne_of_gt hw
  have hh0 : h ≠ 0 := ne_of_gt hh
  refine ⟨rfl, rfl, ?_, ?_⟩
  · simp [handleMouseMove]
  · simp only [handleMouseMove, ParallaxOffset.mk.injEq]
    constructor <;> (field_simp; ring)

/-- Witness for claim C8 at strength 10, pointer (1, 1), viewport 4 × 2. -/
theorem handleMouseMove_formula_witness :
    (0 : ℚ) < 4 ∧ (0 : ℚ) < 2 ∧
    (initialOffset = { x := 0, y := 0 } ∧
      handleMouseMove 10 1 1 4 2 =
        { x := ((1 : ℚ) - 4 / 2) / (4 / 2) * 10
        , y := ((1 : ℚ) - 2 / 2) / (2 / 2) * 10 } ∧
      handleMouseMove 10 ((4 : ℚ) / 2) ((2 : ℚ) / 2) 4 2 = { x := 0, y := 0 } ∧
      handleMouseMove 10 0 0 4 2 = { x := -10, y := -10 }) :=
  ⟨by norm_num, by norm_num,
    handleMouseMove_formula 10 1 1 4 2 (by norm_num) (by norm_num)⟩

theorem centred_ratio_bounds (p d s : ℚ) (hs : 0 ≤ s) (hd : 0 < d)
    (h0 : 0 ≤ p) (h1 : p ≤ d) :
    -s ≤ (p - d / 2) / (d / 2) * s ∧ (p - d / 2) / (d / 2) * s ≤ s := by
  have hd2 : (0 : ℚ) < d / 2 := by linarith
  have hub : (p - d / 2) / (d / 2) ≤ 1 := by
    rw [div_le_one hd2]; linarith
  have hlb : (-1 : ℚ) ≤ (p - d / 2) / (d / 2) := by
    rw [le_div_iff₀ hd2]; linarith
  constructor
  · have hmul := mul_le_mul_of_nonneg_right hlb hs
    linarith
  · have hmul := mul_le_mul_of_nonneg_right hub hs
    linarith

/-- Claim C9: for every pointer event inside the viewport, both
components of the computed offset lie in `[-strength, strength]`. -/
theorem handleMouseMove_bounded (s px py w h : ℚ) (hs : 0 ≤ s)
    (hw : 0 < w) (hh : 0 < h) (hpx0 : 0 ≤ px) (hpxw : px ≤ w)
    (hpy0 : 0 ≤ py) (hpyh : py ≤ h) :
    -s ≤ (handleMouseMove s px py w h).x ∧
    (handleMouseMove s px py w h).x ≤ s ∧
    -s ≤ (handleMouseMove s px py w h).y ∧
    (handleMouseMove s px py w h).y ≤ s := by
  obtain ⟨hx1, hx2⟩ := centred_ratio_bounds px w s hs hw hpx0 hpxw
  obtain ⟨hy1, hy2⟩ := centred_ratio_bounds py h s hs hh hpy0 hpyh
  exact ⟨hx1, hx2, hy1, hy2⟩

/-- Witness for claim C9 at strength 15, pointer (3, 0), viewport 4 × 2. -/
theorem handleMouseMove_bounded_witness :
    (0 : ℚ) ≤ 15 ∧ (0 : ℚ) < 4 ∧ (0 : ℚ) < 2 ∧ (0 : ℚ) ≤ 3 ∧ (3 : ℚ) ≤ 4 ∧
    (0 : ℚ) ≤ 0 ∧ (0 : ℚ) ≤ 2 ∧
    (-(15 : ℚ) ≤ (handleMouseMove 15 3 0 4 2).x ∧
      (handleMouseMove 15 3 0 4 2).x ≤ 15 ∧
      -(15 : ℚ) ≤ (handleMouseMove 15 3 0 4 2).y ∧
      (handleMouseMove 15 3 0 4 2).y ≤ 15) :=
  ⟨by norm_num, by norm_num, by norm_num, by norm_num, by norm_num,
    by norm_num, by norm_num,
    handleMouseMove_bounded 15 3 0 4 2 (by norm_num) (by norm_num)
      (by norm_num) (by norm_num) (by norm_num) (by norm_num) (by norm_num)⟩

/-- The observable result of mounting `App` (`src/App.js` lines 522-527
and 581) together with `useCountdown` (lines 63-89):
`targetDate = useRef(new Date())` holds the mount instant. React
flushes the passive effects of child components before those of the
parent, so `useCountdown`'s effect inside `CountdownSection` calls
`calculateTimeLeft` — reading the not-yet-adjusted ref — before `App`'s
one-time effect mutates the ref with
`targetDate.current.setFullYear(targetDate.current.getFullYear() + 5)`. -/
structure MountResult where
  targetAtFirstCompute : ℤ
  firstState : CountdownState
  targetAfterEffects : ℤ
deriving DecidableEq

/-- Mounting `App` at epoch-millisecond instant `now`; `plusFiveYears`
abstracts the calendar arithmetic of `setFullYear(getFullYear() + 5)`
on epoch-millisecond time stamps. -/
def appMount (now : ℤ) (plusFiveYears : ℤ → ℤ) : MountResult :=
  { targetAtFirstCompute := now
  , firstState := calculateTimeLeft now now
  , targetAfterEffects := plusFiveYears now }

/-- Every `useCountdown` tick fired after the mount effects have run
reads the mutated ref, i.e. the target is now + 5 years. -/
def appTickState (now : ℤ) (plusFiveYears : ℤ → ℤ) (tickTime : ℤ) :
    CountdownState :=
  calculateTimeLeft (plusFiveYears now) tickTime

/-- Claim C7 counterexample, at mount instant 0 with five years of
157788000000 ms: the first computed state is not derived from the
five-year target (it is all zeros, the five-year target would give a
years field of 5), and the target read at the first computation differs
from the target after the mount effects — the ref is mutated after the
engine has started. -/
theorem appMount_counterexample :
    (appMount 0 (fun t => t + 157788000000)).firstState ≠
      calculateTimeLeft ((fun t => t + 157788000000) 0) 0 ∧
    (appMount 0 (fun t => t + 157788000000)).targetAtFirstCompute ≠
      (appMount 0 (fun t => t + 157788000000)).targetAfterEffects := by
  constructor
  · have h1 : (appMount 0 (fun t => t + 157788000000)).firstState =
        { years := 0, days := 0, hours := 0, minutes := 0, seconds := 0 } := by
      norm_num [appMount, calculateTimeLeft]
    have h2 : calculateTimeLeft ((fun t => t + 157788000000) 0) 0 =
        { years := 5, days := 0, hours := 6, minutes := 0, seconds := 0 } := by
      norm_num [calculateTimeLeft, jsMod, CountdownState.mk.injEq]
    rw [h1, h2]
    simp
  · norm_num [appMount]

/-- Claim C7 (amended): the target ref is created at mount holding the
mount instant itself, so the first state — computed by the child's
effect before `App`'s effect runs — is derived from that pre-mutation
target and is all zeros; `App`'s one-time effect then mutates the ref
to now + 5 years, and every subsequent tick computes from that mutated
target. -/
theorem appMount_behavior (now : ℤ) (plusFiveYears : ℤ → ℤ)
    (tickTime : ℤ) :
    (appMount now plusFiveYears).targetAtFirstCompute = now ∧
    (appMount now plusFiveYears).firstState =
      { years := 0, days := 0, hours := 0, minutes := 0, seconds := 0 } ∧
    (appMount now plusFiveYears).targetAfterEffects = plusFiveYears now ∧
    appTickState now plusFiveYears tickTime =
      calculateTimeLeft (plusFiveYears now) tickTime := by
  refine ⟨rfl, ?_, rfl, rfl⟩
  simp [appMount, calculateTimeLeft]
